import Mathlib

/-!
Shallow embedding of the course-data provider worker and the threshold
watcher of the SignalK course-data plugin.

JavaScript numbers are modelled as real numbers; optional (possibly
undefined or null) inputs and output fields are modelled as `Option`;
ISO-8601 instants are modelled as their epoch-millisecond value (`Int`).
The spherical-geodesy library (`lib/geodesy/latlon-spherical.js`) is an
external dependency of the worker, so its five operations are passed in
as an explicit `GeodesyOps` record, exactly as the worker consumes them.
The wall clock (`new Date()` with no argument) is modelled as an explicit
`now` parameter, in epoch milliseconds.
-/

namespace Course

/-- A geographic point, as constructed by `new LatLon(lat, lon)`. -/
structure LatLon where
  latitude : ℝ
  longitude : ℝ

/-- The navigation-input snapshot handed to the worker (the `SKPaths`
message): vessel position, destination (next point), start (previous)
point, magnetic variation, true heading, speed over ground and the
`navigation.datetime` timestamp (epoch milliseconds). Every field may be
absent. -/
structure SKPaths where
  position : Option LatLon
  nextPointPosition : Option LatLon
  previousPointPosition : Option LatLon
  magneticVariation : Option ℝ
  headingTrue : Option ℝ
  speedOverGround : Option ℝ
  datetime : Option ℤ

/-- One calculation method's result (`CourseResult`); field order follows
the object literals built in `calcs`. `previousPointDistance` is the
nested `previousPoint.distance` field. -/
structure CourseResult where
  calcMethod : Option String
  bearingTrackTrue : Option ℝ
  bearingTrackMagnetic : Option ℝ
  crossTrackError : Option ℝ
  distance : Option ℝ
  bearingTrue : Option ℝ
  bearingMagnetic : Option ℝ
  velocityMadeGood : Option ℝ
  timeToGo : Option ℝ
  estimatedTimeOfArrival : Option ℤ
  previousPointDistance : Option ℝ

/-- The empty/all-null branch result, the `{}` object literal. -/
def emptyCourseResult : CourseResult :=
  ⟨none, none, none, none, none, none, none, none, none, none, none⟩

/-- The dual result (`CourseData`): a great-circle branch, a rhumbline
branch and the perpendicular-passage flag. -/
structure CourseData where
  gc : CourseResult
  rl : CourseResult
  passedPerpendicular : Bool

/-- The canonical empty result `{ gc: {}, rl: {}, passedPerpendicular: false }`. -/
def emptyCourseData : CourseData :=
  ⟨emptyCourseResult, emptyCourseResult, false⟩

/-- The five operations the worker calls on the external geodesy library:
great-circle distance and initial bearing, rhumbline distance and bearing,
and cross-track distance of a point against a path (pathStart, pathEnd). -/
structure GeodesyOps where
  distanceTo : LatLon → LatLon → ℝ
  initialBearingTo : LatLon → LatLon → ℝ
  rhumbDistanceTo : LatLon → LatLon → ℝ
  rhumbBearingTo : LatLon → LatLon → ℝ
  crossTrackDistanceTo : LatLon → LatLon → LatLon → ℝ

/-- Translation of toRadians: degrees times pi over 180. -/
noncomputable def toRadians (value : ℝ) : ℝ :=
  value * Real.pi / 180

/-- Translation of parseSKPaths: the worker processes a message only when vessel
position, next-point position and previous-point position are all
present. -/
def parseSKPaths (src : SKPaths) : Bool :=
  src.position.isSome && src.nextPointPosition.isSome &&
    src.previousPointPosition.isSome

/-- Translation of vmg, Velocity Made Good to Course. Null when true heading or speed
over ground is missing, else `Math.cos(bearingTrue - headingTrue) * sog`. -/
noncomputable def vmg (src : SKPaths) (bearingTrue : ℝ) : Option ℝ :=
  match src.headingTrue, src.speedOverGround with
  | some h, some sog => some (Real.cos (bearingTrue - h) * sog)
  | _, _ => none

/-- Translation of timeCalcs, Time to Go and Estimated Time of Arrival. The null pair
when `distance` is not a number or `vmg` is falsy (null or zero); else
`ttgMsec = Math.floor((distance / (vmg * 0.514444)) * 1000)`,
`ttg = ttgMsec / 1000` and `eta = dateMsec + ttgMsec`, where `dateMsec`
is the snapshot datetime or the wall clock (`now`). -/
noncomputable def timeCalcs (now : ℤ) (src : SKPaths) (distance : Option ℝ)
    (vmgValue : Option ℝ) : Option ℝ × Option ℤ :=
  match distance, vmgValue with
  | some d, some v =>
    if v = 0 then (none, none)
    else
      let dateMsec : ℤ := src.datetime.getD now
      let ttgMsec : ℤ := ⌊d / (v * 0.514444) * 1000⌋
      (some ((ttgMsec : ℝ) / 1000), some (dateMsec + ttgMsec))
  | _, _ => (none, none)

/-- The 2-D vector of the passage test. -/
structure Vector where
  x : ℝ
  y : ℝ
  length : ℝ

/-- Translation of xDiff inside toVector: longitudinal difference including the
dateline transition. `bx` is unwrapped when the origin longitude `a`
exceeds 170 and the end longitude `b` is negative (E to W) or when `a` is
below -170 and `b` is positive (W to E); the result is `bx - a`. -/
noncomputable def xDiff (a b : ℝ) : ℝ :=
  let bx : ℝ :=
    if a > 170 ∧ b < 0 then a + (180 - a) + (180 + b)
    else if a < -170 ∧ b > 0 then a - (180 + a) - (180 - b)
    else b
  bx - a

/-- Translation of toVector(origin, end): x is the unwrapped longitude difference, y
the latitude difference, length the Euclidean norm. -/
noncomputable def toVector (origin e : LatLon) : Vector :=
  let x := xDiff origin.longitude e.longitude
  let y := e.latitude - origin.latitude
  ⟨x, y, Real.sqrt (x ^ 2 + y ^ 2)⟩

/-- Translation of passedPerpendicular: true when the angle (in degrees, via
`Math.acos` of the normalised dot product) between the vectors
destination-to-vessel and destination-to-start exceeds 90. -/
noncomputable def passedPerpendicular (vesselPosition destination startPoint :
    LatLon) : Bool :=
  let va := toVector destination vesselPosition
  let vb := toVector destination startPoint
  let rad := Real.arccos ((va.x * vb.x + va.y * vb.y) / (va.length * vb.length))
  let deg := 180 / Real.pi * rad
  decide (deg > 90)

/-- Translation of calcs, the course computation. When vessel position, destination or
start point is absent it returns the canonical empty result; otherwise it
computes the shared cross-track error once and fills the great-circle and
rhumbline branches and the passage flag. -/
noncomputable def calcs (ops : GeodesyOps) (now : ℤ) (src : SKPaths) :
    CourseData :=
  match src.position, src.nextPointPosition, src.previousPointPosition with
  | some vesselPosition, some destination, some startPoint =>
    let xte := ops.crossTrackDistanceTo vesselPosition startPoint destination
    let bearingTrackTrue := toRadians (ops.initialBearingTo startPoint destination)
    let bearingTrue := toRadians (ops.initialBearingTo vesselPosition destination)
    let bearingTrackMagnetic : Option ℝ :=
      match src.magneticVariation with
      | some mv => some (bearingTrackTrue - mv)
      | none => none
    let bearingMagnetic : Option ℝ :=
      match src.magneticVariation with
      | some mv => some (bearingTrue - mv)
      | none => none
    let gcDistance := ops.distanceTo vesselPosition destination
    let gcVmg := vmg src bearingTrue
    let gcTime := timeCalcs now src (some gcDistance) gcVmg
    let gcRes : CourseResult :=
      ⟨some "Great Circle", some bearingTrackTrue, bearingTrackMagnetic,
        some xte, some gcDistance, some bearingTrue, bearingMagnetic, gcVmg,
        gcTime.1, gcTime.2, some (ops.distanceTo vesselPosition startPoint)⟩
    let rlBearingTrackTrue := toRadians (ops.rhumbBearingTo startPoint destination)
    let rlBearingTrue := toRadians (ops.rhumbBearingTo vesselPosition destination)
    let rlBearingTrackMagnetic : Option ℝ :=
      match src.magneticVariation with
      | some mv => some (rlBearingTrackTrue - mv)
      | none => none
    let rlBearingMagnetic : Option ℝ :=
      match src.magneticVariation with
      | some mv => some (rlBearingTrue - mv)
      | none => none
    let rlDistance := ops.rhumbDistanceTo vesselPosition destination
    let rlVmg := vmg src rlBearingTrue
    let rlTime := timeCalcs now src (some rlDistance) rlVmg
    let rlRes : CourseResult :=
      ⟨some "Rhumbline", some rlBearingTrackTrue, rlBearingTrackMagnetic,
        some xte, some rlDistance, some rlBearingTrue, rlBearingMagnetic, rlVmg,
        rlTime.1, rlTime.2, some (ops.rhumbDistanceTo vesselPosition startPoint)⟩
    ⟨gcRes, rlRes, passedPerpendicular vesselPosition destination startPoint⟩
  | _, _, _ => emptyCourseData

/-- The current worker's message handler as a step function on its
`activeDest` flag: a parsable message is computed and posted and sets the
flag; an unparsable one posts the empty result exactly when the flag was
set, and clears it. -/
noncomputable def courseStep (ops : GeodesyOps) (now : ℤ) (activeDest : Bool)
    (message : SKPaths) : Bool × Option CourseData :=
  if parseSKPaths message then (true, some (calcs ops now message))
  else if activeDest then (false, some emptyCourseData)
  else (activeDest, none)

/-- Runs the current worker's handler over a message list, collecting the
posted results. -/
noncomputable def courseRun (ops : GeodesyOps) (now : ℤ) (activeDest : Bool) :
    List SKPaths → Bool × List CourseData
  | [] => (activeDest, [])
  | m :: ms =>
    let r := courseStep ops now activeDest m
    let rest := courseRun ops now r.1 ms
    (rest.1, r.2.toList ++ rest.2)

/-- Constant MAX_STALE_COUNT of the staleCounter variant of the worker. -/
def MAX_STALE_COUNT : ℕ := 20

/-- The staleCounter variant of the worker's message handler as a step
function on its counter: a parsable message resets the counter and posts
the computation; an unparsable one increments the counter, and when the
incremented counter exceeds `MAX_STALE_COUNT` the counter is reset and
the empty result is posted. -/
noncomputable def courseStepStale (ops : GeodesyOps) (now : ℤ)
    (staleCounter : ℕ) (message : SKPaths) : ℕ × Option CourseData :=
  if parseSKPaths message then (0, some (calcs ops now message))
  else if staleCounter + 1 > MAX_STALE_COUNT then (0, some emptyCourseData)
  else (staleCounter + 1, none)

/-- Runs the staleCounter variant's handler over a message list,
collecting the posted results. -/
noncomputable def courseRunStale (ops : GeodesyOps) (now : ℤ)
    (staleCounter : ℕ) : List SKPaths → ℕ × List CourseData
  | [] => (staleCounter, [])
  | m :: ms =>
    let r := courseStepStale ops now staleCounter m
    let rest := courseRunStale ops now r.1 ms
    (rest.1, r.2.toList ++ rest.2)

/-- The kind of a watcher event. -/
inductive WatchEventType where
  | enter : WatchEventType
  | exit : WatchEventType
deriving DecidableEq

/-- Modelled from the spec: the `WatchEvent` emitted by the Threshold
Watcher of `lib/alarms` (not under src), carrying its kind and the value
that triggered it. -/
structure WatchEvent (α : Type) where
  type : WatchEventType
  value : α

/-- Modelled from the spec: the Threshold Watcher state of `lib/alarms`
(not under src): the mutable range bounds and the current binary
membership (`inside`; the initial state is Outside, i.e. `false`). -/
structure Watcher (α : Type) where
  rangeMin : α
  rangeMax : α
  inside : Bool

/-- Modelled from the spec: membership of a value in the watcher's range
`[rangeMin, rangeMax)`. -/
def memberOf {α : Type} [LinearOrder α] (w : Watcher α) (v : α) : Bool :=
  decide (w.rangeMin ≤ v ∧ v < w.rangeMax)

/-- Modelled from the spec: `Watcher.observe` of `lib/alarms` (not under
src). It re-evaluates membership; when membership is unchanged it emits
nothing, otherwise it flips the state and emits an `enter` or `exit`
event carrying the observed value. -/
def observe {α : Type} [LinearOrder α] (w : Watcher α) (v : α) :
    Watcher α × Option (WatchEvent α) :=
  let m := memberOf w v
  if m = w.inside then (w, none)
  else ({ w with inside := m },
    some ⟨if m then WatchEventType.enter else WatchEventType.exit, v⟩)

/-- Modelled from the spec: a sequence of `observe` calls, collecting the
emitted events in order. -/
def observeRun {α : Type} [LinearOrder α] (w : Watcher α) :
    List α → Watcher α × List (WatchEvent α)
  | [] => (w, [])
  | v :: vs =>
    let r := observe w v
    let rest := observeRun r.1 vs
    (rest.1, r.2.toList ++ rest.2)

/-- A list of event kinds strictly alternates, starting with `enter`
exactly when the state it is measured against is Outside (`false`). -/
def alternatesFrom : Bool → List WatchEventType → Prop
  | _, [] => True
  | b, k :: ks =>
    k = (if b then WatchEventType.exit else WatchEventType.enter) ∧
      alternatesFrom (!b) ks

/-! Concrete fixtures used by witnesses and counterexamples. -/

/-- The origin point. -/
def p00 : LatLon := ⟨0, 0⟩

/-- A concrete instantiation of the geodesy operations: distances 1,
bearings 0, cross-track distance 3. -/
noncomputable def ops0 : GeodesyOps :=
  ⟨fun _ _ => 1, fun _ _ => 0, fun _ _ => 1, fun _ _ => 0, fun _ _ _ => 3⟩

/-- A snapshot with every input absent. -/
def sEmpty : SKPaths := ⟨none, none, none, none, none, none, none⟩

/-- A snapshot with every input present. -/
noncomputable def sFull : SKPaths :=
  ⟨some p00, some p00, some p00, some 2, some 0, some 1, some 0⟩

/-- A valid snapshot with heading and speed but no datetime. -/
noncomputable def sNoDt : SKPaths :=
  ⟨some p00, some p00, some p00, none, some 0, some 1, none⟩

/-- A valid snapshot lacking the auxiliary inputs. -/
def sNoAux : SKPaths :=
  ⟨some p00, some p00, some p00, none, none, none, some 0⟩

/-- Stated from the spec's words, for comparison with the code: the
unwrapped longitude difference, where the difference is taken after
adding or subtracting 360 degrees when the origin longitude exceeds +170
and the end longitude is negative, or symmetrically at -170/positive. -/
noncomputable def spec_lonDiff (a b : ℝ) : ℝ :=
  if a > 170 ∧ b < 0 then b + 360 - a
  else if a < -170 ∧ b > 0 then b - 360 - a
  else b - a

/-- Stated from the spec's words, for comparison with the code: the
angle in degrees, via the dot-product formula, between the vector
destination-to-vessel and the vector destination-to-start in the
equirectangular approximation with unwrapped longitude differences. -/
noncomputable def spec_passageAngleDeg (v d s : LatLon) : ℝ :=
  let ax := spec_lonDiff d.longitude v.longitude
  let ay := v.latitude - d.latitude
  let bx := spec_lonDiff d.longitude s.longitude
  let sy := s.latitude - d.latitude
  180 / Real.pi *
    Real.arccos ((ax * bx + ay * sy) /
      (Real.sqrt (ax ^ 2 + ay ^ 2) * Real.sqrt (bx ^ 2 + sy ^ 2)))

/-! Claim theorems. -/

/-- C1: for every input snapshot in which the vessel position, the
destination (next point) or the start (previous) point is absent, the
computation returns the canonical empty `CourseData` (both branches the
all-null shape and the passage flag false), and the worker's input
validation rejects the snapshot. -/
theorem C1_missing_input_empty (ops : GeodesyOps) (now : ℤ) (s : SKPaths)
    (h : s.position = none ∨ s.nextPointPosition = none ∨
      s.previousPointPosition = none) :
    calcs ops now s = emptyCourseData ∧ parseSKPaths s = false := by
  obtain ⟨pos, np, pp, mv, ht, sog, dt⟩ := s
  refine ⟨?_, ?_⟩ <;>
    (cases pos <;> cases np <;> cases pp <;> simp_all [calcs, parseSKPaths])

/-- Witness for C1 at the all-absent snapshot. -/
theorem C1_missing_input_empty_witness :
    sEmpty.position = none ∧
      (calcs ops0 0 sEmpty = emptyCourseData ∧ parseSKPaths sEmpty = false) :=
  ⟨rfl, C1_missing_input_empty ops0 0 sEmpty (Or.inl rfl)⟩

/-- C2: for every valid snapshot, the cross-track error fields of the
great-circle and rhumbline branches are both exactly the single
cross-track distance of the vessel against the start-to-destination
segment. -/
theorem C2_shared_cross_track_error (ops : GeodesyOps) (now : ℤ)
    (s : SKPaths) (vp dp sp : LatLon) (h1 : s.position = some vp)
    (h2 : s.nextPointPosition = some dp)
    (h3 : s.previousPointPosition = some sp) :
    (calcs ops now s).gc.crossTrackError
        = some (ops.crossTrackDistanceTo vp sp dp) ∧
      (calcs ops now s).rl.crossTrackError
        = some (ops.crossTrackDistanceTo vp sp dp) := by
  simp [calcs, h1, h2, h3]

/-- Witness for C2 at a concrete valid snapshot. -/
theorem C2_shared_cross_track_error_witness :
    sFull.position = some p00 ∧
      ((calcs ops0 0 sFull).gc.crossTrackError
          = some (ops0.crossTrackDistanceTo p00 p00 p00) ∧
        (calcs ops0 0 sFull).rl.crossTrackError
          = some (ops0.crossTrackDistanceTo p00 p00 p00)) :=
  ⟨rfl, C2_shared_cross_track_error ops0 0 sFull p00 p00 p00 rfl rfl rfl⟩

/-- C5: for every valid snapshot, each branch's velocity made good is
`cos(vessel bearing - true heading) * speed over ground` computed with
that branch's own vessel bearing (great-circle initial bearing for the
gc branch, rhumb bearing for the rl branch), and it is null exactly when
true heading or speed over ground is missing. -/
theorem C5_velocity_made_good (ops : GeodesyOps) (now : ℤ) (s : SKPaths)
    (vp dp sp : LatLon) (h1 : s.position = some vp)
    (h2 : s.nextPointPosition = some dp)
    (h3 : s.previousPointPosition = some sp) :
    (∀ hd sog : ℝ, s.headingTrue = some hd → s.speedOverGround = some sog →
        (calcs ops now s).gc.velocityMadeGood
            = some (Real.cos (toRadians (ops.initialBearingTo vp dp) - hd) * sog) ∧
          (calcs ops now s).rl.velocityMadeGood
            = some (Real.cos (toRadians (ops.rhumbBearingTo vp dp) - hd) * sog)) ∧
      ((s.headingTrue = none ∨ s.speedOverGround = none) →
        (calcs ops now s).gc.velocityMadeGood = none ∧
          (calcs ops now s).rl.velocityMadeGood = none) := by
  constructor
  · intro hd sog hhd hsog
    simp [calcs, vmg, h1, h2, h3, hhd, hsog]
  · intro hmiss
    rcases hmiss with hmiss | hmiss
    · simp [calcs, vmg, h1, h2, h3, hmiss]
    · cases hht : s.headingTrue <;> simp [calcs, vmg, h1, h2, h3, hht, hmiss]

/-- Witness for C5 at a concrete valid snapshot with heading 0 and speed
over ground 1. -/
theorem C5_velocity_made_good_witness :
    sFull.headingTrue = some 0 ∧
      (calcs ops0 0 sFull).gc.velocityMadeGood
          = some (Real.cos (toRadians (ops0.initialBearingTo p00 p00) - 0) * 1) ∧
        (calcs ops0 0 sFull).rl.velocityMadeGood
          = some (Real.cos (toRadians (ops0.rhumbBearingTo p00 p00) - 0) * 1) :=
  ⟨rfl, (C5_velocity_made_good ops0 0 sFull p00 p00 p00 rfl rfl rfl).1
    0 1 rfl rfl⟩

/-- C6: for every valid snapshot with known magnetic variation, each of
the four magnetic bearing fields equals the corresponding true bearing
minus the variation; without magnetic variation all four magnetic
bearing fields are null. -/
theorem C6_magnetic_bearings (ops : GeodesyOps) (now : ℤ) (s : SKPaths)
    (vp dp sp : LatLon) (h1 : s.position = some vp)
    (h2 : s.nextPointPosition = some dp)
    (h3 : s.previousPointPosition = some sp) :
    (∀ mv : ℝ, s.magneticVariation = some mv →
        (calcs ops now s).gc.bearingTrackMagnetic
            = ((calcs ops now s).gc.bearingTrackTrue).map (fun t => t - mv) ∧
          (calcs ops now s).gc.bearingMagnetic
            = ((calcs ops now s).gc.bearingTrue).map (fun t => t - mv) ∧
          (calcs ops now s).rl.bearingTrackMagnetic
            = ((calcs ops now s).rl.bearingTrackTrue).map (fun t => t - mv) ∧
          (calcs ops now s).rl.bearingMagnetic
            = ((calcs ops now s).rl.bearingTrue).map (fun t => t - mv)) ∧
      (s.magneticVariation = none →
        (calcs ops now s).gc.bearingTrackMagnetic = none ∧
          (calcs ops now s).gc.bearingMagnetic = none ∧
          (calcs ops now s).rl.bearingTrackMagnetic = none ∧
          (calcs ops now s).rl.bearingMagnetic = none) := by
  constructor
  · intro mv hmv
    simp [calcs, h1, h2, h3, hmv]
  · intro hmv
    simp [calcs, h1, h2, h3, hmv]

/-- Witness for C6 at a concrete valid snapshot with magnetic
variation 2. -/
theorem C6_magnetic_bearings_witness :
    sFull.magneticVariation = some 2 ∧
      ((calcs ops0 0 sFull).gc.bearingTrackMagnetic
          = ((calcs ops0 0 sFull).gc.bearingTrackTrue).map (fun t => t - 2) ∧
        (calcs ops0 0 sFull).gc.bearingMagnetic
          = ((calcs ops0 0 sFull).gc.bearingTrue).map (fun t => t - 2) ∧
        (calcs ops0 0 sFull).rl.bearingTrackMagnetic
          = ((calcs ops0 0 sFull).rl.bearingTrackTrue).map (fun t => t - 2) ∧
        (calcs ops0 0 sFull).rl.bearingMagnetic
          = ((calcs ops0 0 sFull).rl.bearingTrue).map (fun t => t - 2)) :=
  ⟨rfl, (C6_magnetic_bearings ops0 0 sFull p00 p00 p00 rfl rfl rfl).1 2 rfl⟩

/-- The time-to-go quotient for distance 1 and velocity made good 1 is
1943.84 milliseconds before flooring, so the floored value is 1943. -/
theorem floor_ttg_one : ⌊(1 : ℝ) / (1 * 0.514444) * 1000⌋ = 1943 := by
  rw [Int.floor_eq_iff]
  norm_num

/-- The gc branch's estimated time of arrival is the second component of
`timeCalcs` at the gc distance and gc velocity made good. -/
theorem calcs_eta_gc (ops : GeodesyOps) (now : ℤ) (s : SKPaths)
    (vp dp sp : LatLon) (h1 : s.position = some vp)
    (h2 : s.nextPointPosition = some dp)
    (h3 : s.previousPointPosition = some sp) :
    (calcs ops now s).gc.estimatedTimeOfArrival
      = (timeCalcs now s (some (ops.distanceTo vp dp))
          (vmg s (toRadians (ops.initialBearingTo vp dp)))).2 := by
  simp [calcs, h1, h2, h3]

/-- C4 counterexample: at distance 1 and velocity made good 1 the
time-to-go is the floored 1943 milliseconds divided by 1000, which is not
the exact quotient `distance / (vmg * 0.514444)`. -/
theorem C4_counterexample :
    (timeCalcs 0 sFull (some 1) (some 1)).1 = some ((1943 : ℝ) / 1000) ∧
      (timeCalcs 0 sFull (some 1) (some 1)).1
        ≠ some ((1 : ℝ) / (1 * 0.514444)) := by
  have hts : (timeCalcs 0 sFull (some 1) (some 1)).1
      = some ((1943 : ℝ) / 1000) := by
    simp only [timeCalcs, sFull]
    rw [if_neg (by norm_num : ¬(1 : ℝ) = 0), floor_ttg_one]
    norm_num
  refine ⟨hts, ?_⟩
  rw [hts]
  intro h
  rw [Option.some.injEq] at h
  norm_num at h

/-- C4 (amended): the null pair is returned exactly when the distance is
missing or the velocity made good is missing or zero; otherwise the
time-to-go is the quotient `distance / (vmg * 0.514444)` in milliseconds
floored and divided by 1000, and the estimated time of arrival is the
snapshot timestamp (or the wall clock) plus the floored milliseconds;
each branch of a valid snapshot carries exactly the `timeCalcs` pair at
that branch's own distance and velocity made good. -/
theorem C4_time_calcs :
    (∀ (now : ℤ) (s : SKPaths) (d v : ℝ),
        timeCalcs now s (some d) (some v)
          = if v = 0 then (none, none)
            else (some ((⌊d / (v * 0.514444) * 1000⌋ : ℝ) / 1000),
              some (s.datetime.getD now + ⌊d / (v * 0.514444) * 1000⌋))) ∧
      (∀ (now : ℤ) (s : SKPaths) (o : Option ℝ),
        timeCalcs now s none o = (none, none)) ∧
      (∀ (now : ℤ) (s : SKPaths) (o : Option ℝ),
        timeCalcs now s o none = (none, none)) ∧
      (∀ (ops : GeodesyOps) (now : ℤ) (s : SKPaths) (vp dp sp : LatLon),
        s.position = some vp → s.nextPointPosition = some dp →
        s.previousPointPosition = some sp →
        (calcs ops now s).gc.timeToGo
            = (timeCalcs now s (some (ops.distanceTo vp dp))
                (vmg s (toRadians (ops.initialBearingTo vp dp)))).1 ∧
          (calcs ops now s).gc.estimatedTimeOfArrival
            = (timeCalcs now s (some (ops.distanceTo vp dp))
                (vmg s (toRadians (ops.initialBearingTo vp dp)))).2 ∧
          (calcs ops now s).rl.timeToGo
            = (timeCalcs now s (some (ops.rhumbDistanceTo vp dp))
                (vmg s (toRadians (ops.rhumbBearingTo vp dp)))).1 ∧
          (calcs ops now s).rl.estimatedTimeOfArrival
            = (timeCalcs now s (some (ops.rhumbDistanceTo vp dp))
                (vmg s (toRadians (ops.rhumbBearingTo vp dp)))).2) := by
  refine ⟨?_, ?_, ?_, ?_⟩
  · intro now s d v
    rfl
  · intro now s o
    rfl
  · intro now s o
    cases o <;> rfl
  · intro ops now s vp dp sp h1 h2 h3
    refine ⟨?_, ?_, ?_, ?_⟩ <;> simp [calcs, h1, h2, h3]

/-- Witness for C4 at a concrete valid snapshot. -/
theorem C4_time_calcs_witness :
    sFull.position = some p00 ∧
      ((calcs ops0 0 sFull).gc.timeToGo
          = (timeCalcs 0 sFull (some (ops0.distanceTo p00 p00))
              (vmg sFull (toRadians (ops0.initialBearingTo p00 p00)))).1 ∧
        (calcs ops0 0 sFull).gc.estimatedTimeOfArrival
          = (timeCalcs 0 sFull (some (ops0.distanceTo p00 p00))
              (vmg sFull (toRadians (ops0.initialBearingTo p00 p00)))).2 ∧
        (calcs ops0 0 sFull).rl.timeToGo
          = (timeCalcs 0 sFull (some (ops0.rhumbDistanceTo p00 p00))
              (vmg sFull (toRadians (ops0.rhumbBearingTo p00 p00)))).1 ∧
        (calcs ops0 0 sFull).rl.estimatedTimeOfArrival
          = (timeCalcs 0 sFull (some (ops0.rhumbDistanceTo p00 p00))
              (vmg sFull (toRadians (ops0.rhumbBearingTo p00 p00)))).2) :=
  ⟨rfl, C4_time_calcs.2.2.2 ops0 0 sFull p00 p00 p00 rfl rfl rfl⟩

/-- When the snapshot carries its own datetime, `timeCalcs` does not
depend on the wall clock. -/
theorem timeCalcs_datetime_some (now now' : ℤ) (s : SKPaths) (d : ℤ)
    (h : s.datetime = some d) (dist v : Option ℝ) :
    timeCalcs now s dist v = timeCalcs now' s dist v := by
  cases dist <;> cases v <;> simp [timeCalcs, h]

/-- C8 counterexample: on a valid snapshot without `navigation.datetime`
the estimated time of arrival incorporates the wall clock, so two calls
at wall-clock instants 0 and 1000 return different results. -/
theorem C8_counterexample :
    sNoDt.datetime = none ∧
      (calcs ops0 0 sNoDt).gc.estimatedTimeOfArrival = some 1943 ∧
      (calcs ops0 1000 sNoDt).gc.estimatedTimeOfArrival = some 2943 ∧
      calcs ops0 0 sNoDt ≠ calcs ops0 1000 sNoDt := by
  have hv : vmg sNoDt (toRadians (ops0.initialBearingTo p00 p00))
      = some 1 := by
    simp [vmg, sNoDt, ops0, toRadians, Real.cos_zero]
  have e0 : (calcs ops0 0 sNoDt).gc.estimatedTimeOfArrival = some 1943 := by
    rw [calcs_eta_gc ops0 0 sNoDt p00 p00 p00 rfl rfl rfl, hv]
    show (timeCalcs 0 sNoDt (some 1) (some 1)).2 = some 1943
    simp only [timeCalcs, sNoDt]
    rw [if_neg (by norm_num : ¬(1 : ℝ) = 0), floor_ttg_one]
    norm_num
  have e1 : (calcs ops0 1000 sNoDt).gc.estimatedTimeOfArrival
      = some 2943 := by
    rw [calcs_eta_gc ops0 1000 sNoDt p00 p00 p00 rfl rfl rfl, hv]
    show (timeCalcs 1000 sNoDt (some 1) (some 1)).2 = some 2943
    simp only [timeCalcs, sNoDt]
    rw [if_neg (by norm_num : ¬(1 : ℝ) = 0), floor_ttg_one]
    norm_num
  refine ⟨rfl, e0, e1, ?_⟩
  intro heq
  have hproj := congrArg (fun r => r.gc.estimatedTimeOfArrival) heq
  simp only at hproj
  rw [e0, e1] at hproj
  simp at hproj

/-- C8 (amended): the computation is deterministic in the snapshot
provided the snapshot carries its own `navigation.datetime`; then the
wall-clock instant does not influence the result, so two calls with the
identical snapshot are bit-identical. -/
theorem C8_deterministic_with_datetime (ops : GeodesyOps) (now now' : ℤ)
    (s : SKPaths) (d : ℤ) (h : s.datetime = some d) :
    calcs ops now s = calcs ops now' s := by
  cases h1 : s.position <;> cases h2 : s.nextPointPosition <;>
    cases h3 : s.previousPointPosition <;>
      simp [calcs, h1, h2, h3, timeCalcs_datetime_some now now' s d h]

/-- Witness for C8 at a concrete snapshot carrying its datetime. -/
theorem C8_deterministic_with_datetime_witness :
    sFull.datetime = some 0 ∧ calcs ops0 3 sFull = calcs ops0 7 sFull :=
  ⟨rfl, C8_deterministic_with_datetime ops0 3 7 sFull 0 rfl⟩

/-- C10 counterexample: at distance 0 with velocity made good -1 the
time-to-go is 0 (not negative) and the estimated time of arrival equals
the snapshot timestamp 0 (not strictly earlier). -/
theorem C10_counterexample :
    sFull.datetime = some 0 ∧
      timeCalcs 0 sFull (some 0) (some (-1)) = (some 0, some 0) := by
  refine ⟨rfl, ?_⟩
  simp only [timeCalcs, sFull]
  rw [if_neg (by norm_num : ¬(-1 : ℝ) = 0)]
  norm_num

/-- C10 (amended): for a positive distance and a negative velocity made
good, `timeCalcs` returns a negative time-to-go (the floored negative
millisecond quotient divided by 1000) and an estimated time of arrival
strictly earlier than the snapshot timestamp (or wall clock), rather
than the null pair. -/
theorem C10_negative_vmg (now : ℤ) (s : SKPaths) (d v : ℝ) (hd : 0 < d)
    (hv : v < 0) :
    ∃ t : ℤ, t < 0 ∧
      timeCalcs now s (some d) (some v)
          = (some ((t : ℝ) / 1000), some (s.datetime.getD now + t)) ∧
      ((t : ℝ) / 1000) < 0 ∧
      s.datetime.getD now + t < s.datetime.getD now := by
  have hvc : v * 0.514444 < 0 := mul_neg_of_neg_of_pos hv (by norm_num)
  have hq : d / (v * 0.514444) * 1000 < 0 :=
    mul_neg_of_neg_of_pos (div_neg_of_pos_of_neg hd hvc) (by norm_num)
  have ht : ⌊d / (v * 0.514444) * 1000⌋ < 0 := by
    refine Int.floor_lt.mpr ?_
    push_cast
    exact hq
  refine ⟨⌊d / (v * 0.514444) * 1000⌋, ht, ?_, ?_, ?_⟩
  · simp [timeCalcs, hv.ne]
  · refine div_neg_of_neg_of_pos ?_ (by norm_num)
    exact_mod_cast ht
  · omega

/-- The code's unwrapped longitude difference agrees with the spec's
formulation. -/
theorem xDiff_eq_spec (a b : ℝ) : xDiff a b = spec_lonDiff a b := by
  simp only [xDiff, spec_lonDiff]
  split_ifs <;> ring

/-- Unfolding of passedPerpendicular as one comparison. -/
theorem passedPerpendicular_formula (v d s : LatLon) :
    passedPerpendicular v d s =
      decide (180 / Real.pi * Real.arccos
        ((xDiff d.longitude v.longitude * xDiff d.longitude s.longitude +
          (v.latitude - d.latitude) * (s.latitude - d.latitude)) /
          (Real.sqrt (xDiff d.longitude v.longitude ^ 2 +
              (v.latitude - d.latitude) ^ 2) *
            Real.sqrt (xDiff d.longitude s.longitude ^ 2 +
              (s.latitude - d.latitude) ^ 2))) > 90) := rfl

/-- C3: the passage flag holds exactly when the spec's dot-product angle
in degrees (with unwrapped longitude differences) strictly exceeds 90;
the unwrapped longitude difference from destination longitude 179 to
vessel longitude -179 is 2, not 358; and on the dateline-free scenario
with start (0,0) and destination (0,10) the flag is true for the vessel
at (0,15) and false for the vessel at (0,5). -/
theorem C3_passed_perpendicular :
    (∀ v d s : LatLon,
        (passedPerpendicular v d s = true ↔ spec_passageAngleDeg v d s > 90)) ∧
      xDiff 179 (-179) = 2 ∧
      passedPerpendicular ⟨0, 15⟩ ⟨0, 10⟩ ⟨0, 0⟩ = true ∧
      passedPerpendicular ⟨0, 5⟩ ⟨0, 10⟩ ⟨0, 0⟩ = false := by
  have h25 : Real.sqrt (25 : ℝ) = 5 := by
    rw [show (25 : ℝ) = 5 ^ 2 by norm_num]
    exact Real.sqrt_sq (by norm_num)
  have h100 : Real.sqrt (100 : ℝ) = 10 := by
    rw [show (100 : ℝ) = 10 ^ 2 by norm_num]
    exact Real.sqrt_sq (by norm_num)
  have hxa : xDiff (10 : ℝ) 15 = 5 := by
    simp only [xDiff]
    rw [if_neg (by norm_num), if_neg (by norm_num)]
    norm_num
  have hxb : xDiff (10 : ℝ) 0 = -10 := by
    simp only [xDiff]
    rw [if_neg (by norm_num), if_neg (by norm_num)]
    norm_num
  have hxc : xDiff (10 : ℝ) 5 = -5 := by
    simp only [xDiff]
    rw [if_neg (by norm_num), if_neg (by norm_num)]
    norm_num
  refine ⟨?_, ?_, ?_, ?_⟩
  · intro v d s
    rw [passedPerpendicular_formula, decide_eq_true_eq]
    simp only [spec_passageAngleDeg, xDiff_eq_spec]
  · simp only [xDiff]
    rw [if_pos (by norm_num : (179 : ℝ) > 170 ∧ (-179 : ℝ) < 0)]
    norm_num
  · rw [passedPerpendicular_formula]
    norm_num [hxa, hxb, h25, h100]
    rw [div_mul_cancel₀ _ Real.pi_ne_zero]
    norm_num
  · rw [passedPerpendicular_formula]
    norm_num [hxc, hxb, h25, h100]

/-- Witness for C10 at distance 1 and velocity made good -1. -/
theorem C10_negative_vmg_witness :
    (0 : ℝ) < 1 ∧ (-1 : ℝ) < 0 ∧
      (∃ t : ℤ, t < 0 ∧
        timeCalcs 0 sFull (some 1) (some (-1))
            = (some ((t : ℝ) / 1000), some (sFull.datetime.getD 0 + t)) ∧
        ((t : ℝ) / 1000) < 0 ∧
        sFull.datetime.getD 0 + t < sFull.datetime.getD 0) :=
  ⟨by norm_num, by norm_num,
    C10_negative_vmg 0 sFull 1 (-1) (by norm_num) (by norm_num)⟩

/-- The current worker posts nothing on stale input when no destination
was active. -/
theorem courseRun_inactive (ops : GeodesyOps) (now : ℤ)
    (msgs : List SKPaths) (h : ∀ m ∈ msgs, parseSKPaths m = false) :
    courseRun ops now false msgs = (false, []) := by
  induction msgs with
  | nil => rfl
  | cons m ms ih =>
    have hm : parseSKPaths m = false := h m (by simp)
    have hrest := ih (fun x hx => h x (by simp [hx]))
    simp [courseRun, courseStep, hm, hrest]

/-- The staleCounter worker posts nothing while the count of consecutive
stale calls stays within the threshold. -/
theorem courseRunStale_no_emit (ops : GeodesyOps) (now : ℤ)
    (msgs : List SKPaths) :
    ∀ c : ℕ, (∀ m ∈ msgs, parseSKPaths m = false) →
      c + msgs.length ≤ MAX_STALE_COUNT →
      courseRunStale ops now c msgs = (c + msgs.length, []) := by
  induction msgs with
  | nil =>
    intro c _ _
    simp [courseRunStale]
  | cons m ms ih =>
    intro c h hlen
    have hm : parseSKPaths m = false := h m (by simp)
    simp only [List.length_cons] at hlen
    have hnot : ¬(c + 1 > MAX_STALE_COUNT) := by
      simp only [MAX_STALE_COUNT] at hlen ⊢
      omega
    have hrest := ih (c + 1) (fun x hx => h x (by simp [hx])) (by omega)
    simp [courseRunStale, courseStepStale, hm, hnot, hrest]
    omega

/-- The staleCounter worker posts exactly one empty result on the call
that drives the count of consecutive stale calls past the threshold, and
resets its counter. -/
theorem courseRunStale_emit (ops : GeodesyOps) (now : ℤ)
    (msgs : List SKPaths) :
    ∀ c : ℕ, (∀ m ∈ msgs, parseSKPaths m = false) →
      c ≤ MAX_STALE_COUNT → c + msgs.length = MAX_STALE_COUNT + 1 →
      courseRunStale ops now c msgs = (0, [emptyCourseData]) := by
  induction msgs with
  | nil =>
    intro c _ hc hlen
    exfalso
    simp at hlen
    omega
  | cons m ms ih =>
    intro c h hc hlen
    have hm : parseSKPaths m = false := h m (by simp)
    simp only [List.length_cons] at hlen
    by_cases hc20 : c = MAX_STALE_COUNT
    · have hms : ms = [] := by
        have : ms.length = 0 := by omega
        exact List.length_eq_zero.mp this
      subst hms
      subst hc20
      simp [courseRunStale, courseStepStale, hm, MAX_STALE_COUNT]
    · have hnot : ¬(c + 1 > MAX_STALE_COUNT) := by
        rcases Nat.lt_or_ge c MAX_STALE_COUNT with hlt | hge
        · omega
        · exact absurd (Nat.le_antisymm hc hge) hc20
      have hrest := ih (c + 1) (fun x hx => h x (by simp [hx])) (by omega)
        (by omega)
      simp [courseRunStale, courseStepStale, hm, hnot, hrest]

/-- C7 counterexample: the staleCounter worker, started fresh with no
previously active destination, still posts an invalidating empty result
after 21 consecutive insufficient-input calls. -/
theorem C7_counterexample :
    (courseRunStale ops0 0 0 (List.replicate 21 sEmpty)).2
      = [emptyCourseData] := by
  rw [courseRunStale_emit ops0 0 (List.replicate 21 sEmpty) 0
    (fun m hm => by rw [List.eq_of_mem_replicate hm]; rfl)
    (by simp [MAX_STALE_COUNT])
    (by simp [MAX_STALE_COUNT])]

/-- C7 (amended): the current worker (activeDest flag) posts exactly one
invalidating empty result on the first insufficient-input call after an
active destination, never on later stale calls and never without a prior
active destination; the older staleCounter worker posts nothing for up
to 20 consecutive stale calls, then exactly one invalidating empty
result on the 21st, resetting its counter, regardless of whether a
destination was previously active. -/
theorem C7_stale_invalidation :
    (∀ (ops : GeodesyOps) (now : ℤ) (msgs : List SKPaths), msgs ≠ [] →
        (∀ m ∈ msgs, parseSKPaths m = false) →
        (courseRun ops now true msgs).2 = [emptyCourseData] ∧
          (courseRun ops now false msgs).2 = []) ∧
      (∀ (ops : GeodesyOps) (now : ℤ) (msgs : List SKPaths),
        (∀ m ∈ msgs, parseSKPaths m = false) →
        (msgs.length ≤ MAX_STALE_COUNT →
          courseRunStale ops now 0 msgs = (msgs.length, [])) ∧
        (msgs.length = MAX_STALE_COUNT + 1 →
          courseRunStale ops now 0 msgs = (0, [emptyCourseData]))) := by
  constructor
  · intro ops now msgs hne h
    cases msgs with
    | nil => exact absurd rfl hne
    | cons m ms =>
      have hm : parseSKPaths m = false := h m (by simp)
      have hrest := courseRun_inactive ops now ms
        (fun x hx => h x (by simp [hx]))
      constructor
      · simp [courseRun, courseStep, hm, hrest]
      · exact congrArg Prod.snd
          (courseRun_inactive ops now (m :: ms) h)
  · intro ops now msgs h
    constructor
    · intro hlen
      simpa using courseRunStale_no_emit ops now msgs 0 h (by omega)
    · intro hlen
      exact courseRunStale_emit ops now msgs 0 h (by omega) (by omega)

/-- Witness for C7 at a single stale message. -/
theorem C7_stale_invalidation_witness :
    ([sEmpty] ≠ ([] : List SKPaths)) ∧
      ((courseRun ops0 0 true [sEmpty]).2 = [emptyCourseData] ∧
        (courseRun ops0 0 false [sEmpty]).2 = []) :=
  ⟨by simp, C7_stale_invalidation.1 ops0 0 [sEmpty] (by simp)
    (fun m hm => by simp at hm; subst hm; rfl)⟩

/-- An observation that does not change membership emits nothing and
leaves the watcher unchanged. -/
theorem observe_unchanged {α : Type} [LinearOrder α] (w : Watcher α)
    (v : α) (h : memberOf w v = w.inside) : observe w v = (w, none) := by
  simp [observe, h]

/-- An observation that changes membership flips the state and emits the
matching event. -/
theorem observe_changed {α : Type} [LinearOrder α] (w : Watcher α) (v : α)
    (h : ¬memberOf w v = w.inside) :
    observe w v = ({ w with inside := memberOf w v },
      some ⟨if memberOf w v then WatchEventType.enter
        else WatchEventType.exit, v⟩) := by
  simp [observe, h]

/-- A run of observations whose membership never differs from the
current state emits no events. -/
theorem observeRun_no_change {α : Type} [LinearOrder α] (w : Watcher α)
    (vs : List α) (h : ∀ v ∈ vs, memberOf w v = w.inside) :
    (observeRun w vs).2 = [] := by
  induction vs with
  | nil => rfl
  | cons v vs ih =>
    have hv := observe_unchanged w v (h v (by simp))
    simp [observeRun, hv, ih (fun x hx => h x (by simp [hx]))]

/-- The events of any observation run strictly alternate, starting with
`enter` exactly when the watcher starts Outside. -/
theorem observeRun_alternates {α : Type} [LinearOrder α] :
    ∀ (vs : List α) (w : Watcher α),
      alternatesFrom w.inside (((observeRun w vs).2).map WatchEvent.type) := by
  intro vs
  induction vs with
  | nil =>
    intro w
    simp [observeRun, alternatesFrom]
  | cons v vs ih =>
    intro w
    by_cases h : memberOf w v = w.inside
    · have hv := observe_unchanged w v h
      simpa [observeRun, hv] using ih w
    · have hv := observe_changed w v h
      have ih' := ih { w with inside := memberOf w v }
      have hflip : memberOf w v = !w.inside := by
        cases hm : memberOf w v <;> cases hw : w.inside <;> simp_all
      simp only [observeRun, hv, Option.toList_some, List.singleton_append,
        List.map_cons, alternatesFrom]
      constructor
      · cases hm : memberOf w v <;> cases hw : w.inside <;> simp_all
      · rw [← hflip]
        simpa using ih'

/-- C9: the Watcher emits exactly on membership transitions: no event
when membership is unchanged, no events over a run that never changes
membership, and the events of any run strictly alternate between enter
and exit starting from the current state. -/
theorem C9_watcher_events {α : Type} [LinearOrder α] :
    (∀ (w : Watcher α) (v : α),
        (observe w v).2 = none ↔ memberOf w v = w.inside) ∧
      (∀ (w : Watcher α) (vs : List α),
        (∀ v ∈ vs, memberOf w v = w.inside) → (observeRun w vs).2 = []) ∧
      (∀ (w : Watcher α) (vs : List α),
        alternatesFrom w.inside (((observeRun w vs).2).map WatchEvent.type)) := by
  refine ⟨?_, ?_, ?_⟩
  · intro w v
    constructor
    · intro hnone
      by_contra h
      rw [observe_changed w v h] at hnone
      simp at hnone
    · intro h
      rw [observe_unchanged w v h]
  · exact observeRun_no_change
  · intro w vs
    exact observeRun_alternates vs w

/-- Witness for C9: a watcher of rationals that starts Inside and
observes three in-range values emits nothing. -/
theorem C9_watcher_events_witness :
    (observeRun (⟨0, 10, true⟩ : Watcher ℚ) [1, 2, 3]).2 = [] :=
  C9_watcher_events.2.1 ⟨0, 10, true⟩ [1, 2, 3] (by decide)

end Course
